import Mathlib

/-!
Verification of the OTP input widget (`OTPInput`).

The widget keeps a single editable text primitive whose displayed text is the
external value prefixed with a fixed sentinel ("ghost") character.  We embed
the pure logic of its event handlers:

* `includeGhostCharacter` / `removeGhostCharacter` — the sentinel workaround;
* `replaceFirst` — the semantics of JS `String.replace` with a plain string
  pattern, which replaces only the first occurrence;
* `completionFires` — the completion effect;
* `changeListener` — the change handler with sanitization and pattern check;
* `fixSelection`, `widenSelection`, `selectListenerMirror` — the select
  listener that widens a caret into a one-character window and recomputes the
  mirrored selection;
* `altArrowLeftSelection` / `altArrowRightSelection` — the Alt+Arrow branches
  of the key-down listener;
* `selectOverride` — the imperative-handle override of `.select()`;
* `onFocusSelection` — the focus handler's selection window;
* `onCopyText` — the copy handler's clipboard text;
* `classifySelection` — the selection-shape classification (a `none` result
  models the thrown invariant-violation error);
* `buildSlots` / `isSlotActive` — the per-slot render context.

Values and texts are modelled as `List Char`; native selection offsets as
`Int` (a DOM offset is a nonnegative integer, but the mirror arithmetic in
the code can produce `-1`, so `Int` keeps the subtraction exact).
-/

namespace OTPInput

/-- The sentinel ("ghost") character prefixed onto the native input's text. -/
def GHOST_CHARACTER : Char := '@'

/-- Semantics of JS `s.replace(pat, '')` for a single-character string
pattern: only the first occurrence of the character is removed. -/
def replaceFirst (c : Char) : List Char → List Char
  | [] => []
  | x :: xs => if x = c then xs else x :: replaceFirst c xs

/-- Source `includeGhostCharacter`: prefix the ghost character unless the
text already contains it. -/
def includeGhostCharacter (s : List Char) : List Char :=
  if GHOST_CHARACTER ∈ s then s else GHOST_CHARACTER :: s

/-- Source `removeGhostCharacter`: `s.replace(GHOST_CHARACTER, '')`, i.e.
remove the first occurrence of the ghost character. -/
def removeGhostCharacter (s : List Char) : List Char :=
  replaceFirst GHOST_CHARACTER s

/-- The completion effect: given the previous value (`none` on the first
render), the current value and `maxLength`, does `onComplete` fire? -/
def completionFires (previousValue : Option (List Char)) (value : List Char)
    (maxLength : Nat) : Bool :=
  match previousValue with
  | none => false
  | some pv =>
      decide (value ≠ pv) && decide (pv.length < maxLength) &&
        decide (value.length = maxLength)

/-- Sanitization performed by `_changeListener`: first remove a space
(`replace(' ', '')`), then remove the ghost character. -/
def sanitize (incoming : List Char) : List Char :=
  removeGhostCharacter (replaceFirst ' ' incoming)

/-- The `_changeListener` decision: `none` models `e.preventDefault()` with
no call to `onChange` (the change is rejected); `some v` models
`onChange v`.  `regexp` is `none` when no pattern is configured. -/
def changeListener (regexp : Option (List Char → Bool))
    (incoming : List Char) : Option (List Char) :=
  let withoutGhostCharacter := sanitize incoming
  match regexp with
  | some r =>
      if 0 < withoutGhostCharacter.length ∧ r withoutGhostCharacter = false
      then none
      else some withoutGhostCharacter
  | none => some withoutGhostCharacter

/-- The external value after a change event: unchanged on rejection,
otherwise the sanitized text. -/
def applyChange (regexp : Option (List Char → Bool))
    (old incoming : List Char) : List Char :=
  (changeListener regexp incoming).getD old

/-- The `fixSelection` helper of `_selectListener`, applied to each native
selection endpoint when recomputing the mirror; the source keeps two
branches (`selection > 1` and otherwise) that both subtract one. -/
def fixSelection : Option Int → Option Int
  | none => none
  | some s => if s > 1 then some (s - 1) else some (s - 1)

/-- The widening step of `_selectListener`: a single caret (outside insert
mode) is widened to a one-character native selection window. -/
def widenSelection (value : List Char) (maxLength : Nat)
    (s? e? : Option Int) : Option Int × Option Int :=
  match s?, e? with
  | some s, some e =>
      if value.length ≠ 0 then
        if s = e ∧ ¬(s = (value.length : Int) ∧ value.length < maxLength)
        then
          if s = 0 then (some 0, some 1)
          else if s = (value.length : Int) then
            (some ((value.length : Int) - 1), some (value.length : Int))
          else (some s, some (s + 1))
        else (some s, some e)
      else (some s, some e)
  | s?, e? => (s?, e?)

/-- The mirrored selection produced by `_selectListener` from a native
selection: widen, then shift each endpoint with `fixSelection`. -/
def selectListenerMirror (value : List Char) (maxLength : Nat)
    (s? e? : Option Int) : Option Int × Option Int :=
  let ns := widenSelection value maxLength s? e?
  (fixSelection ns.1, fixSelection ns.2)

/-- The native selection range set by the Alt+ArrowLeft branch of
`_keyDownListener` (navigation enabled, no Shift). -/
def altArrowLeftSelection (value : List Char) : Int × Int :=
  (0, min 1 (value.length : Int))

/-- The native selection range set by the Alt+ArrowRight branch of
`_keyDownListener` (navigation enabled, no Shift). -/
def altArrowRightSelection (value : List Char) : Int × Int :=
  (max 0 ((value.length : Int) - 1), (value.length : Int))

/-- The `.select()` override installed by `useImperativeHandle`: `none`
models the early return when navigation is disabled (neither the native nor
the mirrored selection changes); `some (s, e)` is the mirrored selection it
sets, whose end is `el.value.length`, the length of the ghost-prefixed
native text. -/
def selectOverride (allowNavigation : Bool) (value : List Char) :
    Option (Nat × Nat) :=
  if !allowNavigation then none
  else some (0, (includeGhostCharacter value).length)

/-- The selection window set by the `onFocus` handler (both natively and as
the mirror): `start = min(el.value.length - 1, maxLength - 1)`,
`end = el.value.length`, where `el.value` is the ghost-prefixed text. -/
def onFocusSelection (value : List Char) (maxLength : Nat) : Int × Int :=
  (min (((includeGhostCharacter value).length : Int) - 1)
      ((maxLength : Int) - 1),
    ((includeGhostCharacter value).length : Int))

/-- The text the `onCopy` handler writes to the clipboard. -/
def onCopyText (value : List Char) : List Char :=
  removeGhostCharacter value

/-- The selection-shape enum from `types.ts`, as used by
`_keyDownListener`. -/
inductive SelectionType where
  | CARET
  | CHAR
  | MULTI
deriving DecidableEq

/-- The selection classification in `_keyDownListener`; `none` models the
`throw new Error(...)` branch. -/
def classifySelection (s e : Int) : Option SelectionType :=
  if s = e then some SelectionType.CARET
  else if e - s = 1 then some SelectionType.CHAR
  else if e - s > 1 then some SelectionType.MULTI
  else none

/-- One rendered slot of the render-callback context. -/
structure Slot where
  char : Option Char
  isActive : Bool
  hasFakeCaret : Bool
deriving DecidableEq

/-- The `isActive` computation for slot `slotIdx` (render callback). -/
def isSlotActive (isFocused : Bool) (mStart mEnd : Option Int)
    (slotIdx : Nat) : Bool :=
  isFocused &&
    match mStart, mEnd with
    | some s, some e =>
        decide ((s = e ∧ (slotIdx : Int) = s) ∨
          (s ≤ (slotIdx : Int) ∧ (slotIdx : Int) < e))
    | _, _ => false

/-- The slot array passed to the render callback: one slot per index below
`maxLength`, with the value's character at that index (or `none`), the
active flag, and the fake-caret flag. -/
def buildSlots (value : List Char) (maxLength : Nat) (isFocused : Bool)
    (mStart mEnd : Option Int) : List Slot :=
  (List.range maxLength).map fun slotIdx =>
    let isActive := isSlotActive isFocused mStart mEnd slotIdx
    let char := value.get? slotIdx
    { char := char, isActive := isActive,
      hasFakeCaret := isActive && char.isNone }

/-- A digits-only pattern, used to instantiate witnesses. -/
def isDigits (s : List Char) : Bool :=
  s.all Char.isDigit

end OTPInput

namespace OTPInput

/-- C1: the completion callback fires exactly when the value changed, the
previous length was strictly below `maxLength`, and the new length equals
`maxLength`; in particular it does not fire while the length stays at
`maxLength`, nor on the first render (no previous value). -/
theorem completionFires_spec (p v : List Char) (m : Nat) :
    (completionFires (some p) v m = true ↔
      v ≠ p ∧ p.length < m ∧ v.length = m)
    ∧ (p.length = m → completionFires (some p) v m = false)
    ∧ completionFires none v m = false := by
  refine ⟨?_, ?_, rfl⟩
  · simp [completionFires, and_assoc]
  · intro hp
    simp [completionFires, hp]

/-- Witness for C1: with previous value of full length, a further update
keeping the length at `maxLength` does not fire the callback. -/
theorem completionFires_spec_witness :
    (['1', '2'] : List Char).length = 2 ∧
      completionFires (some ['1', '2']) ['3', '4'] 2 = false :=
  ⟨by decide, (completionFires_spec ['1', '2'] ['3', '4'] 2).2.1 (by decide)⟩

/-- C2: a change whose sanitized text is non-empty and fails the configured
pattern is rejected (`none`) and leaves the external value unchanged; every
other change commits the sanitized text, so every accepted value satisfies
the pattern or is empty. -/
theorem changeListener_spec (r : List Char → Bool) (old incoming : List Char) :
    (changeListener (some r) incoming = none ↔
      0 < (sanitize incoming).length ∧ r (sanitize incoming) = false)
    ∧ (changeListener (some r) incoming = none →
        applyChange (some r) old incoming = old)
    ∧ (∀ v, changeListener (some r) incoming = some v →
        v = sanitize incoming ∧ applyChange (some r) old incoming = v ∧
          (r v = true ∨ v = [])) := by
  have hmain : changeListener (some r) incoming =
      if 0 < (sanitize incoming).length ∧ r (sanitize incoming) = false
      then none else some (sanitize incoming) := rfl
  by_cases hc : 0 < (sanitize incoming).length ∧ r (sanitize incoming) = false
  · rw [hmain, if_pos hc]
    exact ⟨by simp [hc], fun _ => by simp [applyChange, hmain, if_pos hc],
      fun v hv => by simp at hv⟩
  · rw [hmain, if_neg hc]
    refine ⟨by simp [hc], by simp, fun v hv => ?_⟩
    have hv2 : v = sanitize incoming := (Option.some.inj hv).symm
    refine ⟨hv2, by simp [applyChange, hmain, if_neg hc, hv2], ?_⟩
    push_neg at hc
    by_cases hl : 0 < (sanitize incoming).length
    · cases hr : r (sanitize incoming) with
      | false => exact absurd hr (hc hl)
      | true => exact Or.inl (by rw [hv2]; exact hr)
    · exact Or.inr (hv2.trans (List.length_eq_zero.mp (by omega)))

/-- Witness for C2: with the digits-only pattern the incoming text
`"@12"` sanitizes to `"12"` and is committed. -/
theorem changeListener_spec_witness :
    changeListener (some isDigits) ['@', '1', '2'] = some ['1', '2'] ∧
      (['1', '2'] = sanitize ['@', '1', '2'] ∧
        applyChange (some isDigits) [] ['@', '1', '2'] = ['1', '2'] ∧
        (isDigits ['1', '2'] = true ∨ (['1', '2'] : List Char) = [])) :=
  ⟨by decide,
    (changeListener_spec isDigits [] ['@', '1', '2']).2.2 ['1', '2'] (by decide)⟩

/-- Counting a character after removing its own first occurrence: the count
drops by one (and stays zero when absent). -/
theorem count_replaceFirst_self (c : Char) (l : List Char) :
    (replaceFirst c l).count c = l.count c - 1 := by
  induction l with
  | nil => rfl
  | cons x xs ih =>
    by_cases hx : x = c
    · subst hx
      simp [replaceFirst, List.count_cons_self]
    · have hcx : c ≠ x := fun h => hx h.symm
      simp [replaceFirst, hx, List.count_cons_of_ne hcx, ih]

/-- Removing the first occurrence of one character leaves the count of any
other character unchanged. -/
theorem count_replaceFirst_of_ne (c d : Char) (h : c ≠ d) (l : List Char) :
    (replaceFirst d l).count c = l.count c := by
  induction l with
  | nil => rfl
  | cons x xs ih =>
    by_cases hx : x = d
    · subst hx
      simp [replaceFirst, List.count_cons_of_ne h]
    · simp [replaceFirst, hx, List.count_cons, ih]

/-- Removing the first occurrence of an absent character is the identity. -/
theorem replaceFirst_of_not_mem (c : Char) (l : List Char) (h : c ∉ l) :
    replaceFirst c l = l := by
  induction l with
  | nil => rfl
  | cons x xs ih =>
    rw [List.mem_cons, not_or] at h
    have hxc : ¬ x = c := fun hx => h.1 (hx ▸ rfl)
    simp [replaceFirst, hxc, ih h.2]

/-- C3 counterexample: sanitization does not remove all occurrences — with
incoming text `"@@"` the result still contains the sentinel, and with
`"  1"` it still contains a space. -/
theorem sanitize_counterexample :
    sanitize ['@', '@'] = ['@'] ∧ GHOST_CHARACTER ∈ sanitize ['@', '@'] ∧
      sanitize [' ', ' ', '1'] = [' ', '1'] ∧ ' ' ∈ sanitize [' ', ' ', '1'] := by
  decide

/-- C3 (amended): sanitization removes only the first occurrence of a space
and then the first occurrence of the sentinel; when the incoming text holds
at most one space and at most one sentinel, the result contains neither. -/
theorem sanitize_amended (s : List Char) (hs : s.count ' ' ≤ 1)
    (hg : s.count GHOST_CHARACTER ≤ 1) :
    ' ' ∉ sanitize s ∧ GHOST_CHARACTER ∉ sanitize s := by
  have hne : (' ' : Char) ≠ GHOST_CHARACTER := by decide
  have hsp : (sanitize s).count ' ' = 0 := by
    unfold sanitize removeGhostCharacter
    rw [count_replaceFirst_of_ne ' ' GHOST_CHARACTER hne,
      count_replaceFirst_self]
    omega
  have hgh : (sanitize s).count GHOST_CHARACTER = 0 := by
    unfold sanitize removeGhostCharacter
    rw [count_replaceFirst_self,
      count_replaceFirst_of_ne GHOST_CHARACTER ' ' (fun h => hne h.symm)]
    omega
  exact ⟨List.count_eq_zero.mp hsp, List.count_eq_zero.mp hgh⟩

/-- Witness for the amended C3: the incoming text `"@1 "` has one sentinel
and one space and sanitizes to a text with neither. -/
theorem sanitize_amended_witness :
    (['@', '1', ' '] : List Char).count ' ' ≤ 1 ∧
      (['@', '1', ' '] : List Char).count GHOST_CHARACTER ≤ 1 ∧
      (' ' ∉ sanitize ['@', '1', ' '] ∧
        GHOST_CHARACTER ∉ sanitize ['@', '1', ' ']) :=
  ⟨by decide, by decide, sanitize_amended ['@', '1', ' '] (by decide) (by decide)⟩

/-- C4: `fixSelection` shifts every non-null endpoint left by exactly one
(both branches of the source subtract one), maps 1 to 0, and keeps null
endpoints null. -/
theorem fixSelection_spec :
    (∀ s : Int, fixSelection (some s) = some (s - 1))
    ∧ fixSelection none = none
    ∧ fixSelection (some 1) = some 0 := by
  refine ⟨fun s => ?_, rfl, by decide⟩
  simp [fixSelection]

/-- C5: evaluation at value `"12"` with navigation enabled.  The native text
is the ghost-prefixed `"@12"`; the Alt+ArrowRight branch sets the native
selection to (1, 2), which is not widened and mirrors (after the sentinel
shift) to (0, 1), so slot 0 — not slot 1 — is the active slot; Alt+ArrowLeft
sets (0, 1), which mirrors to (-1, 0) and activates no slot at all. -/
theorem altArrowRight_value12_eval :
    includeGhostCharacter ['1', '2'] = ['@', '1', '2'] ∧
      altArrowRightSelection ['1', '2'] = (1, 2) ∧
      selectListenerMirror ['1', '2'] 6 (some 1) (some 2) = (some 0, some 1) ∧
      isSlotActive true (some 0) (some 1) 0 = true ∧
      isSlotActive true (some 0) (some 1) 1 = false ∧
      altArrowLeftSelection ['1', '2'] = (0, 1) ∧
      selectListenerMirror ['1', '2'] 6 (some 0) (some 1) =
        (some (-1), some 0) ∧
      isSlotActive true (some (-1)) (some 0) 0 = false ∧
      isSlotActive true (some (-1)) (some 0) 1 = false := by
  decide

/-- C6: evaluation of the `.select()` override.  With navigation disabled it
is a no-op; with navigation enabled at value `"12"` the mirrored selection it
sets ends at `el.value.length = 3` (the ghost-prefixed text length), not at
the value's length 2. -/
theorem selectOverride_eval :
    selectOverride false ['1', '2'] = none ∧
      selectOverride true ['1', '2'] = some (0, 3) ∧
      (['1', '2'] : List Char).length = 2 ∧
      (includeGhostCharacter ['1', '2']).length = 3 := by
  decide

/-- C7: evaluation of the focus handler.  At the full value `"123456"` with
`maxLength = 6` the window it sets is (5, 7): width 2, not the claimed width
1, because the end uses the ghost-prefixed text length; at the non-full value
`"12"` the window is (2, 3), whose mirror activates slot 2. -/
theorem onFocusSelection_eval :
    onFocusSelection ['1', '2', '3', '4', '5', '6'] 6 = (5, 7) ∧
      (7 - 5 : Int) ≠ 1 ∧
      isSlotActive true (some 5) (some 7) 5 = true ∧
      isSlotActive true (some 5) (some 7) 4 = false ∧
      onFocusSelection ['1', '2'] 6 = (2, 3) ∧
      isSlotActive true (some 2) (some 3) 2 = true := by
  decide

/-- C8 counterexample: at the value `"1 2"` the copy handler writes
`"1 2"` — the space is not removed, contradicting the claim that the
clipboard text equals the value with all spaces removed. -/
theorem onCopyText_counterexample :
    onCopyText ['1', ' ', '2'] = ['1', ' ', '2'] ∧
      ' ' ∈ onCopyText ['1', ' ', '2'] := by
  decide

/-- C8 (amended): the copy handler writes the value with only the first
occurrence of the sentinel removed (spaces are untouched); a value free of
the sentinel is written verbatim, and the ghost-augmented internal text is
never written. -/
theorem onCopyText_spec (v : List Char) :
    onCopyText v = replaceFirst GHOST_CHARACTER v
    ∧ (GHOST_CHARACTER ∉ v →
        onCopyText v = v ∧ onCopyText v ≠ includeGhostCharacter v) := by
  refine ⟨rfl, fun h => ?_⟩
  have hid : onCopyText v = v := replaceFirst_of_not_mem GHOST_CHARACTER v h
  refine ⟨hid, ?_⟩
  rw [hid, includeGhostCharacter, if_neg h]
  intro hcontra
  have := congrArg List.length hcontra
  simp at this

/-- Witness for the amended C8: the value `"12"` contains no sentinel and is
copied verbatim, not as the internal text `"@12"`. -/
theorem onCopyText_spec_witness :
    GHOST_CHARACTER ∉ (['1', '2'] : List Char) ∧
      (onCopyText ['1', '2'] = ['1', '2'] ∧
        onCopyText ['1', '2'] ≠ includeGhostCharacter ['1', '2']) :=
  ⟨by decide, (onCopyText_spec ['1', '2']).2 (by decide)⟩

/-- C9: under `start ≤ end` the classification in `_keyDownListener` always
succeeds (caret, one-character, or multi-character), so the throwing branch
is unreachable. -/
theorem classifySelection_total (s e : Int) (h : s ≤ e) :
    classifySelection s e ≠ none := by
  unfold classifySelection
  by_cases h1 : s = e
  · simp [h1]
  · by_cases h2 : e - s = 1
    · simp [h1, h2]
    · have h3 : e - s > 1 := by omega
      simp [h1, h2, h3]

/-- Witness for C9: the classification succeeds at the selection (0, 2). -/
theorem classifySelection_total_witness :
    (0 : Int) ≤ 2 ∧ classifySelection 0 2 ≠ none :=
  ⟨by decide, classifySelection_total 0 2 (by decide)⟩

/-- C10: the render context holds exactly `maxLength` slots; slot `i` holds
the value's `i`-th character exactly when `i` is below the value's length
and `none` otherwise, and its fake-caret flag is set exactly when the slot
is active with a `none` character. -/
theorem buildSlots_spec (v : List Char) (m : Nat) (f : Bool)
    (ms me : Option Int) :
    (buildSlots v m f ms me).length = m
    ∧ ∀ i, i < m →
        (buildSlots v m f ms me).get? i =
          some { char := v.get? i,
                 isActive := isSlotActive f ms me i,
                 hasFakeCaret := isSlotActive f ms me i && (v.get? i).isNone }
        ∧ (i < v.length ↔ (v.get? i).isSome = true) := by
  refine ⟨by simp [buildSlots], fun i hi => ⟨?_, ?_⟩⟩
  · simp [buildSlots]
    exact ⟨i, List.getElem?_range hi, rfl, rfl, rfl⟩
  · rw [Option.isSome_iff_ne_none, ne_eq, List.get?_eq_none]
    omega

/-- Witness for C10: at value `"1"` with two slots, focused, mirror (0, 1),
slot 1 is past the value: its character is `none`. -/
theorem buildSlots_spec_witness :
    (1 : Nat) < 2 ∧
      ((buildSlots ['1'] 2 true (some 0) (some 1)).get? 1 =
          some { char := (['1'] : List Char).get? 1,
                 isActive := isSlotActive true (some 0) (some 1) 1,
                 hasFakeCaret := isSlotActive true (some 0) (some 1) 1 &&
                   ((['1'] : List Char).get? 1).isNone }
        ∧ (1 < (['1'] : List Char).length ↔
            ((['1'] : List Char).get? 1).isSome = true)) :=
  ⟨by decide, (buildSlots_spec ['1'] 2 true (some 0) (some 1)).2 1 (by decide)⟩

end OTPInput
